import Mathlib

/-!
Verification development for the openscope-ml reinforcement-learning core.

The development shallowly embeds the AI subsystem of the repository:

* `StateModel` / `StateController` (airspace discretisation into polar cells
  and position lookup),
* `AgentModel.canConductInstrumentApproach` (glideslope-interception
  feasibility; both revisions present in the sources are embedded),
* `AgentController` (tabular Q-learning: `getQValue`,
  `computeActionFromQValues`, `computeValueFromQValues`, `getAction`,
  `transition`, `getLegalActions`, and the per-agent body of `update`).

Numbers are embedded as rationals.  Geometric collaborators that live outside
the embedded sources (`distanceToPosition`, `bearingToPosition`,
`bearingFromPosition`) are abstracted as an oracle structure `Geometry`;
positions are recorded in polar form (distance and bearing in degrees, the
bearing in `[0, 360)`) relative to the airport reference point, which is
exactly the data the embedded code extracts from a position.  JavaScript
behaviours that matter are made explicit: `undefined` is `Option.none`, a
thrown `TypeError` is `Except.error ()`, `Number.MIN_VALUE` is the smallest
positive double `2 ^ (-1074)`, and `Math.random()`-driven choices take the
random outcome as an explicit argument.
-/

namespace OpenScope

/-- Continuous position, in polar form relative to the airport reference
point: planar-equivalent distance, and bearing in degrees with the bearing
convention `[0, 360)`.  This is the data the embedded code reads off a
position via `distanceToPosition` / `bearingToPosition` from the airport
reference point. -/
structure Pos where
  dist : ℚ
  bearing : ℚ
deriving DecidableEq

/-- Modelled from the spec: the geometric collaborators of §6 (the
position-model methods `distanceToPosition`, `bearingFromPosition` and
`bearingToPosition` between two arbitrary points) are external to the core
and are not under `src/`; they are abstracted as total oracle functions
returning distances and bearings in degrees.  `bearingUndef` is the lenient
value of `bearingToPosition` when its argument is JavaScript `undefined`:
the real collaborator would itself fault there, but modelling it as a value
ensures that any exception proved below is caused by the embedded code
alone, not by an assumption about a collaborator. -/
structure Geometry where
  distBetween : Pos → Pos → ℚ
  bearingFrom : Pos → Pos → ℚ
  bearingBetween : Pos → Pos → ℚ
  bearingUndef : Pos → ℚ

/-- The `DISTANCE_RANGE` constant of `StateModel`: the distance extent of
each cell, 5 (distance units). -/
def DISTANCE_RANGE : ℚ := 5

/-- The `HEADING_RANGE` constant of `StateModel`: the heading extent of each
cell, 5 degrees. -/
def HEADING_RANGE : ℚ := 5

/-- The `LEARNING_RATE` constant (alpha) of `aiConstants.js`, 0.2. -/
def LEARNING_RATE : ℚ := 1 / 5

/-- The `EXPLORATION_RATE` constant (epsilon) of `aiConstants.js`, 0.8. -/
def EXPLORATION_RATE : ℚ := 4 / 5

/-- The `DISCOUNT_RATE` constant (gamma) of `aiConstants.js`, 0.99. -/
def DISCOUNT_RATE : ℚ := 99 / 100

/-- The four members of the `HEADINGS` object of `aiConstants.js`: the only
actions the controller ever writes or reads in a Q-table row. -/
inductive Action where
  | north
  | east
  | south
  | west
deriving DecidableEq

/-- Numeric heading value of each action per `aiConstants.js`
(`NORTH: 360, SOUTH: 180, EAST: 90, WEST: 270`). -/
def Action.heading : Action → ℚ
  | Action.north => 360
  | Action.east => 90
  | Action.south => 180
  | Action.west => 270

/-- One row of the Q-table: the object `this.values[state.id]`, a mapping
from the four heading keys to numbers. -/
structure Row where
  north : ℚ
  east : ℚ
  south : ℚ
  west : ℚ
deriving DecidableEq

/-- Reading `row[action]` for one of the four headings. -/
def Row.get (r : Row) : Action → ℚ
  | Action.north => r.north
  | Action.east => r.east
  | Action.south => r.south
  | Action.west => r.west

/-- Writing `row[action] = v` for one of the four headings. -/
def Row.set (r : Row) (a : Action) (v : ℚ) : Row :=
  match a with
  | Action.north => { r with north := v }
  | Action.east => { r with east := v }
  | Action.south => { r with south := v }
  | Action.west => { r with west := v }

/-- The all-zero row written by the lazy initialisation in `transition`. -/
def Row.zero : Row := Row.mk 0 0 0 0

/-- The Q-table `this.values`: state id to row; a state id absent from the
JavaScript object is `none`. -/
abbrev QTable := ℕ → Option Row

/-- A `StateModel` (the file bundled in `src/unnamed/part_001`): a polar cell
with a unique id, inner ring radius `minDistance`, wedge start heading
`startHeading`, and the reference position generated at
`(minDistance, startHeading)` from the airport. -/
structure StateModel where
  id : ℕ
  minDistance : ℚ
  startHeading : ℚ
  position : Pos
deriving DecidableEq

/-- Modelled from the spec: `isWithin(value, min, max)` lives in the host
repository's `math/core` module, which is not under `src/`; per its use in
the spec (bounds and tolerance checks, §4.2 and §8) it is the inclusive
numeric range check `min ≤ value ≤ max`. -/
abbrev isWithin (value lo hi : ℚ) : Prop := lo ≤ value ∧ value ≤ hi

/-- Modelled from the spec: `degrees_normalize` lives in the host
repository's `math/circle` module, which is not under `src/`; it maps a
degree value into the canonical range `[0, 360)`. -/
def degrees_normalize (d : ℚ) : ℚ := d - 360 * ((⌊d / 360⌋ : ℤ) : ℚ)

/-- The body of `StateModel.positionIsInState` (part_001, lines 274-282):
the position's distance from the airport must be within
`[minDistance, minDistance + DISTANCE_RANGE]` and its bearing from the
airport within `[startHeading, degrees_normalize (startHeading + HEADING_RANGE)]`.
Only `minDistance` and `startHeading` of the state are consulted, so the
cell is identified by that pair here. -/
def positionIsInState (minDistance startHeading : ℚ) (positionModel : Pos) : Bool :=
  let distanceFromAirport := positionModel.dist
  let bearingFromAirport := positionModel.bearing
  decide (isWithin distanceFromAirport minDistance (minDistance + DISTANCE_RANGE)) &&
    decide (isWithin bearingFromAirport startHeading
      (degrees_normalize (startHeading + HEADING_RANGE)))

/-- Number of iterations of the ring loop in `StateController._buildStates`
(`for (let distance = 0; distance < MAX_DISTANCE; distance += DISTANCE_INTERVAL)`
with `MAX_DISTANCE = ceil(ctr_radius)` and interval 5): the number of
naturals `i` with `5 * i < ⌈ctr_radius⌉`. -/
def numRings (ctr_radius : ℚ) : ℕ := ((⌈ctr_radius⌉ + 4) / 5).toNat

/-- The ring keys of `this._states` built by `StateController._buildStates`:
the multiples of `DISTANCE_RANGE` strictly below `ceil(ctr_radius)`. -/
def buildDistances (ctr_radius : ℚ) : List ℚ :=
  (List.range (numRings ctr_radius)).map fun (i : ℕ) => DISTANCE_RANGE * (i : ℚ)

/-- The wedge start headings built per ring by `StateController._buildStates`
(`for (let heading = 0; heading < 360; heading += HEADING_INTERVAL)` with
interval 5): 72 wedges, in construction order. -/
def buildHeadings : List ℚ :=
  (List.range 72).map fun (i : ℕ) => HEADING_RANGE * (i : ℚ)

/-- The largest `minDistance` of any state actually built by
`_buildStates`. -/
def maxBuiltRing (ctr_radius : ℚ) : ℚ := (buildDistances ctr_radius).foldl max 0

/-- Outer edge of the outermost built ring: the smallest distance not covered
by any built cell. -/
def coverageRadius (ctr_radius : ℚ) : ℚ := DISTANCE_RANGE * (numRings ctr_radius : ℚ)

/-- The body of `StateController.getStateByPosition` (part_001, lines
194-210): compute the distance from the airport, round it down to a multiple
of `DISTANCE_RANGE`; if that ring key was not built return `false` (`none`),
otherwise linearly scan the ring's wedges in construction order and return
the first whose `positionIsInState` holds, else `false`.  The returned cell
is identified by its `(minDistance, startHeading)` pair. -/
def getStateByPosition (ctr_radius : ℚ) (positionModel : Pos) : Option (ℚ × ℚ) :=
  let distanceFromAirport := positionModel.dist
  let closestPositionMatch :=
    DISTANCE_RANGE * ((⌊distanceFromAirport / DISTANCE_RANGE⌋ : ℤ) : ℚ)
  if closestPositionMatch ∈ buildDistances ctr_radius then
    (buildHeadings.find? fun startHeading =>
        positionIsInState closestPositionMatch startHeading positionModel).map
      fun startHeading => (closestPositionMatch, startHeading)
  else none

/-- Runway snapshot consumed by `canConductInstrumentApproach`: threshold
position, heading in degrees (`radiansToDegrees(runwayModel.angle)` folded
into the field), and `getMinimumGlideslopeInterceptAltitude()` folded into a
field. -/
structure RunwayModel where
  position : Pos
  angleDeg : ℚ
  minimumGlideslopeInterceptAltitude : ℚ
deriving DecidableEq

/-- Aircraft snapshot read by `canConductInstrumentApproach` through
`this.aircraftModel`: position, heading in degrees, and the MCP (commanded)
altitude. -/
structure AircraftModel where
  position : Pos
  headingDeg : ℚ
  mcpAltitude : ℚ
deriving DecidableEq

/-- The current revision of `AgentModel.canConductInstrumentApproach`
(`src/unnamed/part_000`, lines 75-124; this revision's fields `lastState`,
`nextState`, `shouldRemove` are the ones the current `AgentController`
uses).  Checks, in order: nil position (false), nil runway (false), distance
from the runway threshold to the aircraft outside `[15, 30]` (false),
commanded altitude below the minimum glideslope-intercept altitude (false),
bearing from the runway to the aircraft more than 10 degrees off the runway
heading (false), aircraft heading within 20 degrees of the runway heading,
i.e. already aligned (false); otherwise true. -/
def canConductInstrumentApproach (G : Geometry) (ac : AircraftModel)
    (position : Option Pos) (runwayModel : Option RunwayModel) : Bool :=
  match position with
  | none => false
  | some _ =>
    match runwayModel with
    | none => false
    | some rw =>
      let distanceToRunway := G.distBetween rw.position ac.position
      if 30 < distanceToRunway ∨ distanceToRunway < 15 then false
      else if ac.mcpAltitude < rw.minimumGlideslopeInterceptAltitude then false
      else
        let aircraftBearing := G.bearingFrom rw.position ac.position
        let headingDifference := rw.angleDeg - aircraftBearing
        if headingDifference < -10 ∨ 10 < headingDifference then false
        else if |ac.headingDeg - rw.angleDeg| < 20 then false
        else true

/-- The superseded revision of `AgentModel.canConductInstrumentApproach`
(the named `AgentModel.js`, lines 47-88).  After the nil guards and the
altitude guard it evaluates `this.runwayModel.heading`, but `AgentModel` has
no `runwayModel` field, so that property access on `undefined` throws a
`TypeError` (`Except.error ()`) on every call that passes the guards. -/
def canConductInstrumentApproachOld (G : Geometry) (ac : AircraftModel)
    (position : Option Pos) (runwayModel : Option RunwayModel) : Except Unit Bool :=
  match position with
  | none => Except.ok false
  | some _ =>
    match runwayModel with
    | none => Except.ok false
    | some rw =>
      if ac.mcpAltitude < rw.minimumGlideslopeInterceptAltitude then Except.ok false
      else Except.error ()

/-- The ambient fields of `AgentController` used by the learning core:
the arrival runway heading in degrees (`this.runwayHeading`), the airport's
`ctr_radius`, the arrival runway threshold position, and the learning
parameters `alpha` and `discount`. -/
structure Ctx where
  runwayHeading : ℚ
  ctr_radius : ℚ
  runwayPosition : Pos
  alpha : ℚ
  discount : ℚ

/-- `AgentController.getQValue` (lines 240-244): 0 for an unseen state,
otherwise the stored `this.values[state.id][action]`. -/
def getQValue (values : QTable) (state : StateModel) (action : Action) : ℚ :=
  match values state.id with
  | none => 0
  | some row => row.get action

/-- `AgentController.getLegalActions` (lines 343-376).  A state in the
terminal approach geometry (ring below 25 and bearing to the runway within
45 degrees of the runway heading) has no legal actions; a state whose
`minDistance` differs from `floor(ctr_radius)` allows all four headings;
otherwise the two-action outermost-ring restriction applies, keyed on
`startHeading`. -/
def getLegalActions (G : Geometry) (ctx : Ctx) (state : StateModel) : List Action :=
  let bearingToRunway := G.bearingBetween state.position ctx.runwayPosition
  if state.minDistance < 25 ∧ isWithin (bearingToRunway - ctx.runwayHeading) (-45) 45 then []
  else if ¬ state.minDistance = ((⌊ctx.ctr_radius⌋ : ℤ) : ℚ) then
    [Action.north, Action.east, Action.south, Action.west]
  else
    (if state.startHeading < 90 ∨ 270 < state.startHeading then [Action.south]
      else [Action.north]) ++
    (if state.startHeading < 180 then [Action.west] else [Action.east])

/-- Modelled from the spec: `choose(list)` from the host repository's
general utilities (not under `src/`) selects a uniformly random element,
`l[Math.floor(Math.random() * l.length)]`; the random draw is made explicit
as the index `k`, reduced modulo the length.  On an empty list the indexing
expression is JavaScript `undefined`, i.e. `none`. -/
def choose : List Action → ℕ → Option Action
  | [], _ => none
  | a :: l, k => (a :: l).get? (k % (a :: l).length)

/-- JavaScript `Number.MIN_VALUE`: the smallest positive double,
`2 ^ (-1074)` — a positive number, not negative infinity. -/
def numberMinValue : ℚ := 1 / 2 ^ 1074

/-- The accumulation loop of `computeActionFromQValues` (lines 277-285):
walk the legal actions keeping the running maximum `qMax` and the list
`bestActions` of actions tied at `qMax`; a strictly larger Q-value resets
the list, an equal one is pushed. -/
def bestLoop (values : QTable) (state : StateModel) :
    List Action → ℚ → List Action → List Action
  | [], _, bestActions => bestActions
  | action :: rest, qMax, bestActions =>
    let q := getQValue values state action
    if qMax < q then bestLoop values state rest q [action]
    else if q = qMax then bestLoop values state rest qMax (bestActions ++ [action])
    else bestLoop values state rest qMax bestActions

/-- `AgentController.computeActionFromQValues` (lines 268-288): `false`
(`none`) when there are no legal actions; otherwise run the accumulation
loop started at `qMax = Number.MIN_VALUE`, `bestActions = []`, and `choose`
among the collected best actions. -/
def computeActionFromQValues (G : Geometry) (ctx : Ctx) (values : QTable)
    (state : StateModel) (k : ℕ) : Option Action :=
  let legalActions := getLegalActions G ctx state
  if legalActions = [] then none
  else choose (bestLoop values state legalActions numberMinValue []) k

/-- `AgentController.computeValueFromQValues` (lines 255-260): 0 when
`computeActionFromQValues` yields a falsy value, else the Q-value of the
returned action. -/
def computeValueFromQValues (G : Geometry) (ctx : Ctx) (values : QTable)
    (state : StateModel) (k : ℕ) : ℚ :=
  match computeActionFromQValues G ctx values state k with
  | none => 0
  | some action => getQValue values state action

/-- `AgentController.getAction` (lines 300-309): `false` (`none`) without
legal actions; with probability epsilon (`randomBelowEpsilon`) a uniformly
random legal action, otherwise the greedy action. -/
def getAction (G : Geometry) (ctx : Ctx) (values : QTable) (state : StateModel)
    (randomBelowEpsilon : Bool) (krand k : ℕ) : Option Action :=
  let legalActions := getLegalActions G ctx state
  if legalActions = [] then none
  else if randomBelowEpsilon then choose legalActions krand
  else computeActionFromQValues G ctx values state k

/-- The lazy row initialisation at the top of `transition` (lines 322-327):
if `state.id` is not a key of `this.values`, create its row with all four
headings at 0. -/
def initRow (values : QTable) (sid : ℕ) : QTable :=
  match values sid with
  | some _ => values
  | none => fun i => if i = sid then some Row.zero else values i

/-- The assignment `this.values[state.id][action] = v` (line 332), performed
after the row for `state.id` is guaranteed to exist. -/
def writeQ (values : QTable) (sid : ℕ) (action : Action) (v : ℚ) : QTable :=
  fun i => if i = sid then some (((values sid).getD Row.zero).set action v) else values i

/-- `AgentController.transition` (lines 321-333): lazily initialise the row
for `state`, compute `sample = reward + discount * computeValueFromQValues(nextState)`
and `current = getQValue(state, action)` against the initialised table, and
store `(1 - alpha) * current + alpha * sample`. -/
def transition (G : Geometry) (ctx : Ctx) (values : QTable) (state : StateModel)
    (action : Action) (nextState : StateModel) (reward : ℚ) (k : ℕ) : QTable :=
  let values1 := initRow values state.id
  let sample := reward + ctx.discount * computeValueFromQValues G ctx values1 nextState k
  let current := getQValue values1 state action
  writeQ values1 state.id action ((1 - ctx.alpha) * current + ctx.alpha * sample)

/-- `computeValueFromQValues` as invoked by `transition` on
`agent.nextState`, which may be the boolean `false` (`none`) when the
aircraft is outside every built cell.  In that case `getLegalActions`
evaluates `state.position` — `undefined` on the boolean `false` — and then
invokes `.bearingToPosition` on that `undefined`, which throws a
`TypeError` (`Except.error ()`). -/
def computeValueFromQValuesJS (G : Geometry) (ctx : Ctx) (values : QTable)
    (state : Option StateModel) (k : ℕ) : Except Unit ℚ :=
  match state with
  | none => Except.error ()
  | some s => Except.ok (computeValueFromQValues G ctx values s k)

/-- `transition` as invoked by `update` with `agent.nextState`, which may be
`false` (`none`); the thrown `TypeError` of the nested
`computeValueFromQValues` call propagates. -/
def transitionJS (G : Geometry) (ctx : Ctx) (values : QTable) (state : StateModel)
    (action : Action) (nextState : Option StateModel) (reward : ℚ) (k : ℕ) :
    Except Unit QTable :=
  let values1 := initRow values state.id
  match computeValueFromQValuesJS G ctx values1 nextState k with
  | Except.error e => Except.error e
  | Except.ok v =>
    let sample := reward + ctx.discount * v
    let current := getQValue values1 state action
    Except.ok (writeQ values1 state.id action ((1 - ctx.alpha) * current + ctx.alpha * sample))

/-- `getAction` as invoked by `update` on `agent.lastState` after the
reassignment `agent.lastState = agent.nextState`, which may be `false`
(`none`); `getLegalActions` then faults exactly as in
`computeValueFromQValuesJS`. -/
def getActionJS (G : Geometry) (ctx : Ctx) (values : QTable) (state : Option StateModel)
    (randomBelowEpsilon : Bool) (krand k : ℕ) : Except Unit (Option Action) :=
  match state with
  | none => Except.error ()
  | some s => Except.ok (getAction G ctx values s randomBelowEpsilon krand k)

/-- What `update` does for one agent at the end of the per-agent body:
issue an approach clearance and remove the agent, issue no command, or issue
one heading command. -/
inductive TickOutcome where
  | approachClearance
  | noCommand
  | headingCommand (a : Action)
deriving DecidableEq

/-- The per-agent body of `AgentController.update` (lines 144-203).
`currentState` is `this.stateController.getStateByAircraft(agent.aircraftModel)`,
possibly `false` (`none`).  If it equals `agent.lastState` the agent is not
pushed to `stateUpdates` and nothing further happens this tick.  Otherwise:
when `lastState` is truthy, reconstruct the taken action from the bearing
between the recorded positions (`bearingUndef` stands for the collaborator's
lenient answer when `nextState` is `false`, see `Geometry`), compute the
reward (1000 on an interceptable approach, -1000 outside the airspace, else
0) and run `transition`; then shift `lastState`; then either clear the
approach and remove the agent, skip an uncontrollable aircraft, or issue the
heading chosen by `getAction` (none issued when it is falsy).  Exceptions
raised anywhere in the body propagate out of `update`. -/
def updateAgent (G : Geometry) (ctx : Ctx) (values : QTable) (ac : AircraftModel)
    (rw : RunwayModel) (lastState currentState : Option StateModel)
    (insideAirspace isControllable randomBelowEpsilon : Bool) (krand k : ℕ) :
    Except Unit (QTable × Option StateModel × TickOutcome) :=
  if currentState = lastState then Except.ok (values, lastState, TickOutcome.noCommand)
  else
    let afterTransition : QTable → Except Unit (QTable × Option StateModel × TickOutcome) :=
      fun values2 =>
        if canConductInstrumentApproach G ac (some ac.position) (some rw) then
          Except.ok (values2, currentState, TickOutcome.approachClearance)
        else if isControllable = false then
          Except.ok (values2, currentState, TickOutcome.noCommand)
        else
          match getActionJS G ctx values2 currentState randomBelowEpsilon krand k with
          | Except.error e => Except.error e
          | Except.ok none => Except.ok (values2, currentState, TickOutcome.noCommand)
          | Except.ok (some a) => Except.ok (values2, currentState, TickOutcome.headingCommand a)
    match lastState with
    | none => afterTransition values
    | some sl =>
      let nextPos : Option Pos := currentState.map StateModel.position
      let bearing : ℚ :=
        match nextPos with
        | some np => G.bearingBetween sl.position np
        | none => G.bearingUndef sl.position
      let action : Action :=
        if bearing ≤ 45 ∨ 315 < bearing then Action.north
        else if 45 < bearing ∧ bearing ≤ 135 then Action.east
        else if 135 < bearing ∧ bearing ≤ 225 then Action.south
        else Action.west
      let reward : ℚ :=
        if canConductInstrumentApproach G ac (some ac.position) (some rw) then 1000
        else if insideAirspace = false then -1000
        else 0
      match transitionJS G ctx values sl action currentState reward k with
      | Except.error e => Except.error e
      | Except.ok values2 => afterTransition values2

/-- Trivial geometry oracle used for concrete evaluations: every
inter-point bearing is 180 degrees (pointing away from the runway
tolerance window used below), every distance 0. -/
def G0 : Geometry := Geometry.mk (fun _ _ => 0) (fun _ _ => 0) (fun _ _ => 180) (fun _ => 0)

/-- Geometry oracle whose inter-point distance is 10, used to witness the
close-in rejection of the interception band. -/
def Gnear : Geometry := Geometry.mk (fun _ _ => 10) (fun _ _ => 0) (fun _ _ => 0) (fun _ => 0)

/-- Controller context for an airport with `ctr_radius = 40` (the spec §8
scenario), runway heading 0, and the configured learning constants. -/
def ctx40 : Ctx := Ctx.mk 0 40 (Pos.mk 0 0) LEARNING_RATE DISCOUNT_RATE

/-- A state on the outermost built ring for `ctr_radius = 40`: ring 35,
wedge 0. -/
def s35 : StateModel := StateModel.mk 0 35 0 (Pos.mk 35 0)

/-- A mid-airspace state: ring 30, wedge 90 (four legal actions under
`ctx40`). -/
def ns30 : StateModel := StateModel.mk 1 30 90 (Pos.mk 30 90)

/-- The empty Q-table. -/
def emptyTable : QTable := fun _ => none

/-- A Q-table whose only row is for `ns30`, with all four actions at -1. -/
def tNeg : QTable := fun i => if i = 1 then some (Row.mk (-1) (-1) (-1) (-1)) else none

/-- A runway at the airport origin, heading 0, glideslope-intercept floor
3000. -/
def rw0 : RunwayModel := RunwayModel.mk (Pos.mk 0 0) 0 3000

/-- An aircraft at distance 10, bearing 0, heading 0, commanded altitude
5000. -/
def ac0 : AircraftModel := AircraftModel.mk (Pos.mk 10 0) 0 5000

/-- Geometry oracle placing the aircraft 20 from the threshold at bearing 5
from the runway: inside the interception band and cone. -/
def Gok : Geometry := Geometry.mk (fun _ _ => 20) (fun _ _ => 5) (fun _ _ => 0) (fun _ => 0)

/-- An aircraft still turning onto final: heading 50 degrees off the runway
heading, commanded altitude 5000. -/
def acApp : AircraftModel := AircraftModel.mk (Pos.mk 20 0) 50 5000

/-- Controller context for a fractional airspace radius 35.5: the only kind
of configuration in which `floor(ctr_radius)` coincides with a built
ring. -/
def ctx355 : Ctx := Ctx.mk 0 (71 / 2) (Pos.mk 0 0) LEARNING_RATE DISCOUNT_RATE

/-- Writing one action of a row leaves every other action unchanged. -/
theorem Row.get_set_ne (r : Row) (v : ℚ) {a b : Action} (h : a ≠ b) :
    (Row.set r b v).get a = r.get a := by
  cases a <;> cases b <;> simp [Row.set, Row.get] at h ⊢

/-- The lazy row initialisation touches no key other than `sid`. -/
theorem initRow_ne (values : QTable) (sid i : ℕ) (h : i ≠ sid) :
    initRow values sid i = values i := by
  unfold initRow
  cases values sid <;> simp [h]

/-- The row write touches no key other than `sid`. -/
theorem writeQ_ne (values : QTable) (sid : ℕ) (action : Action) (v : ℚ) (i : ℕ)
    (h : i ≠ sid) : writeQ values sid action v i = values i := by
  simp [writeQ, h]

/-- Every action of the freshly initialised row reads 0. -/
theorem Row.get_zero (a : Action) : Row.zero.get a = 0 := by
  cases a <;> rfl

/-- After the lazy initialisation, the key `sid` holds the previous row, or
the all-zero row if it was absent. -/
theorem initRow_self (values : QTable) (sid : ℕ) :
    initRow values sid sid = some ((values sid).getD Row.zero) := by
  unfold initRow
  rcases hv : values sid with _ | r
  · simp
  · simp [hv]

/-- Reading another action of the written state's row sees the row that was
there before the write. -/
theorem getQValue_writeQ_ne_action (values : QTable) (state : StateModel)
    (action a : Action) (v : ℚ) (ha : a ≠ action) :
    getQValue (writeQ values state.id action v) state a =
      Row.get ((values state.id).getD Row.zero) a := by
  simp only [getQValue, writeQ, if_true]
  rw [Row.get_set_ne _ _ ha]

/-- The lazy initialisation does not change any Q-value read. -/
theorem getQValue_initRow (values : QTable) (state : StateModel) (a : Action) :
    getQValue (initRow values state.id) state a = getQValue values state a := by
  unfold getQValue initRow
  rcases hv : values state.id with _ | r
  · simp [hv, Row.get_zero]
  · simp [hv]

/-- Sanity: the interception test is satisfiable — the embedded
`canConductInstrumentApproach` is not constantly false. -/
theorem canConductInstrumentApproach_satisfiable :
    canConductInstrumentApproach Gok acApp (some (Pos.mk 20 0)) (some rw0) = true := by
  norm_num [canConductInstrumentApproach, Gok, acApp, rw0]

/-- Sanity: the two-action outermost-ring branch of `getLegalActions` is
reachable, but only when `floor(ctr_radius)` happens to equal a built ring
key — e.g. `ctr_radius = 35.5`, where the ring 35 wedge at heading 0 gets
the pair `[SOUTH, WEST]` (the inward pair for the wedge north of the
airport). -/
theorem getLegalActions_two_when_floor_matches :
    getLegalActions G0 ctx355 s35 = [Action.south, Action.west] := by
  norm_num [getLegalActions, G0, ctx355, s35, isWithin]

/-- With `ctr_radius = 40` the ring loop of `_buildStates` runs 8 times. -/
theorem numRings_40 : numRings 40 = 8 := by
  have hdiv : ((⌈(40:ℚ)⌉ + 4) / 5 : ℤ) = 8 := by norm_num
  rw [numRings, hdiv]
  decide

/-- With `ctr_radius = 38` the ring loop of `_buildStates` also runs 8
times: the outermost built ring is `[35, 40)`, sticking out past the
airspace boundary 38. -/
theorem numRings_38 : numRings 38 = 8 := by
  have hdiv : ((⌈(38:ℚ)⌉ + 4) / 5 : ℤ) = 8 := by norm_num
  rw [numRings, hdiv]
  decide

/-- Claim C1: for a state with a non-empty legal-action set,
`computeActionFromQValues` is claimed to return a legal action of maximal
Q-value, and to return no action only when the legal-action set is empty.
Evaluation of the embedded code refutes this: at the mid-airspace state
`ns30` (four legal actions) with an empty Q-table (every Q-value 0), the
loop's running maximum starts at `Number.MIN_VALUE`, a small positive
number, so no action with Q-value 0 is ever collected, `bestActions` stays
empty, and `choose` yields `undefined` (`none`) for every outcome of the
random draw — no action, although four legal actions exist. -/
theorem computeActionFromQValues_none_on_zero_table :
    getLegalActions G0 ctx40 ns30 = [Action.north, Action.east, Action.south, Action.west] ∧
    ∀ k : ℕ, computeActionFromQValues G0 ctx40 emptyTable ns30 k = none := by
  constructor
  · norm_num [getLegalActions, G0, ctx40, ns30, isWithin]
  · intro k
    norm_num [computeActionFromQValues, getLegalActions, G0, ctx40, ns30, isWithin,
      bestLoop, getQValue, emptyTable, numberMinValue, choose]

/-- Claim C4: the outermost-ring restriction is claimed to apply to every
state whose `minDistance` is the maximum built ring.  Evaluation refutes
this: with `ctr_radius = 40` the maximum built ring is 35, but
`getLegalActions` compares `minDistance` against `floor(ctr_radius) = 40`,
so the outermost built state `s35` (ring 35, wedge 0, not in the terminal
approach geometry since `35 < 25` is false) receives all four actions
instead of the claimed two inward ones. -/
theorem getLegalActions_outermost_ring_unrestricted :
    maxBuiltRing 40 = 35 ∧ s35.minDistance = maxBuiltRing 40 ∧
    getLegalActions G0 ctx40 s35 = [Action.north, Action.east, Action.south, Action.west] := by
  have h8 : numRings 40 = 8 := numRings_40
  refine ⟨?_, ?_, ?_⟩
  · norm_num [maxBuiltRing, buildDistances, h8, List.range_succ, List.foldl_cons,
      List.foldl_nil, max_def, DISTANCE_RANGE]
  · norm_num [s35, maxBuiltRing, buildDistances, h8, List.range_succ, List.foldl_cons,
      List.foldl_nil, max_def, DISTANCE_RANGE]
  · norm_num [getLegalActions, G0, ctx40, s35, isWithin]

/-- Claim C9: the boolean result of `canConductInstrumentApproach` does not
depend on which non-nil position is passed: the position argument is only
consulted by the nil guard, every geometric and altitude test reading the
agent's own aircraft model instead.  This holds for both embedded revisions
(for the superseded one, including the thrown `TypeError`). -/
theorem canConductInstrumentApproach_ignores_position_payload (G : Geometry)
    (ac : AircraftModel) (runwayModel : Option RunwayModel) (p1 p2 : Pos) :
    canConductInstrumentApproach G ac (some p1) runwayModel =
      canConductInstrumentApproach G ac (some p2) runwayModel ∧
    canConductInstrumentApproachOld G ac (some p1) runwayModel =
      canConductInstrumentApproachOld G ac (some p2) runwayModel :=
  ⟨rfl, rfl⟩

/-- Claim C3: every position with distance below `ctr_radius` is claimed to
be located in exactly one cell whose extent contains it, in particular
positions whose bearing falls in the last wedge `[355, 360)`.  Evaluation
refutes this: with `ctr_radius = 40`, the position at distance 10 and
bearing 357 lies in the built ring 10 and in the intended last wedge, yet
`getStateByPosition` returns `none` — the wedge scan tests the bearing
against the interval from 355 to `degrees_normalize (355 + 5) = 0`, which
contains nothing in `[355, 360)`. -/
theorem getStateByPosition_misses_last_wedge :
    ((10:ℚ) < 40 ∧ (355:ℚ) ≤ 357 ∧ (357:ℚ) < 360) ∧
    getStateByPosition 40 (Pos.mk 10 357) = none := by
  constructor
  · norm_num
  · norm_num [getStateByPosition, buildDistances, buildHeadings, numRings_40,
      positionIsInState, isWithin, degrees_normalize, DISTANCE_RANGE, HEADING_RANGE,
      List.range_succ, List.find?]

/-- Claim C7 counterexample: positions with distance at least `ctr_radius`
are claimed to be unmapped, including when `ctr_radius` is not a multiple of
the distance step.  Evaluation refutes this: with `ctr_radius = 38` the last
built ring is `[35, 40)`, and the position at distance 39 (beyond the
airspace boundary 38) is located in the cell `(35, 0)`. -/
theorem getStateByPosition_locates_beyond_ctr :
    (38:ℚ) ≤ 39 ∧ getStateByPosition 38 (Pos.mk 39 0) = some (35, 0) := by
  constructor
  · norm_num
  · norm_num [getStateByPosition, buildDistances, buildHeadings, numRings_38,
      positionIsInState, isWithin, degrees_normalize, DISTANCE_RANGE, HEADING_RANGE,
      List.range_succ, List.find?]

/-- Claim C7, amended: `getStateByPosition` returns `none` for every
position whose distance is at least the coverage radius — the outer edge
`DISTANCE_RANGE * numRings ctr_radius` of the outermost built ring, which
equals `ctr_radius` when `ctr_radius` is a positive multiple of the step
and exceeds it otherwise. -/
theorem getStateByPosition_none_beyond_coverage (ctr_radius : ℚ) (p : Pos)
    (h : coverageRadius ctr_radius ≤ p.dist) :
    getStateByPosition ctr_radius p = none := by
  have hF : (numRings ctr_radius : ℤ) ≤ ⌊p.dist / DISTANCE_RANGE⌋ := by
    rw [Int.le_floor]
    rw [coverageRadius] at h
    rw [le_div_iff₀ (by norm_num [DISTANCE_RANGE] : (0:ℚ) < DISTANCE_RANGE)]
    push_cast
    linarith
  have hnot : DISTANCE_RANGE * ((⌊p.dist / DISTANCE_RANGE⌋ : ℤ) : ℚ) ∉
      buildDistances ctr_radius := by
    intro hmem
    obtain ⟨i, hi, hEq⟩ := List.mem_map.mp hmem
    rw [List.mem_range] at hi
    have hIq : (i : ℚ) = ((⌊p.dist / DISTANCE_RANGE⌋ : ℤ) : ℚ) :=
      mul_left_cancel₀ (by norm_num [DISTANCE_RANGE] : (DISTANCE_RANGE : ℚ) ≠ 0) hEq
    have hIe : (i : ℤ) = ⌊p.dist / DISTANCE_RANGE⌋ := by exact_mod_cast hIq
    omega
  simp only [getStateByPosition]
  rw [if_neg hnot]

/-- Claim C7 witness: a concrete position past the coverage radius of the
`ctr_radius = 40` airspace is unmapped. -/
theorem getStateByPosition_none_beyond_coverage_witness :
    getStateByPosition 40 (Pos.mk 41 0) = none :=
  getStateByPosition_none_beyond_coverage 40 (Pos.mk 41 0)
    (by norm_num [coverageRadius, numRings_40, DISTANCE_RANGE])

/-- Claim C5: after `transition(state, action, nextState, reward)` the
stored value is claimed to be `(1-α)·v + α·(reward + γ·B)` with `B` the
maximum Q-value over `nextState`'s legal actions.  Evaluation refutes this:
with `nextState = ns30` holding -1 on all four legal actions, the nested
`computeValueFromQValues` returns 0 instead of the maximum -1 (the
`Number.MIN_VALUE` initialisation of the best-action loop discards every
non-positive Q-value), so the stored value is 0 while the claimed formula
gives `α·γ·(-1) = -99/500 ≠ 0`. -/
theorem transition_stores_zero_for_negative_next_values :
    (∀ a, getQValue tNeg ns30 a = -1) ∧
    getLegalActions G0 ctx40 ns30 = [Action.north, Action.east, Action.south, Action.west] ∧
    getQValue (transition G0 ctx40 tNeg s35 Action.north ns30 0 0) s35 Action.north = 0 ∧
    (1 - LEARNING_RATE) * getQValue tNeg s35 Action.north +
        LEARNING_RATE * ((0 : ℚ) + DISCOUNT_RATE * (-1)) ≠ 0 := by
  refine ⟨?_, ?_, ?_, ?_⟩
  · intro a
    cases a <;> norm_num [getQValue, tNeg, ns30, Row.get]
  · norm_num [getLegalActions, G0, ctx40, ns30, isWithin]
  · norm_num [transition, initRow, writeQ, computeValueFromQValues,
      computeActionFromQValues, getLegalActions, bestLoop, choose, getQValue,
      G0, ctx40, s35, ns30, tNeg, isWithin, numberMinValue, Row.zero, Row.get, Row.set,
      LEARNING_RATE, DISCOUNT_RATE]
  · norm_num [getQValue, tNeg, s35, LEARNING_RATE, DISCOUNT_RATE]

/-- Claim C2: the per-tick `update` is claimed never to throw, in particular
for an agent whose current cell is `false` because the aircraft is outside
every built ring.  Evaluation refutes this: for an agent whose last recorded
cell is `s35` and whose current cell is `none`, the body calls
`transition(lastState, action, false, reward)`, whose nested
`computeValueFromQValues(false)` reaches `getLegalActions`, evaluates
`state.position` on the boolean `false` (giving `undefined`) and invokes
`bearingToPosition` on it — a `TypeError` that propagates out of
`update`. -/
theorem updateAgent_throws_when_next_cell_missing :
    updateAgent G0 ctx40 emptyTable ac0 rw0 (some s35) none false true false 0 0 =
      Except.error () := by
  norm_num [updateAgent, canConductInstrumentApproach, transitionJS,
    computeValueFromQValuesJS, initRow, emptyTable, G0, ctx40, ac0, rw0, s35]
  exact fun h => nomatch h

/-- Claim C6: `canConductInstrumentApproach` (the current revision, bundled
in `src/unnamed/part_000`) returns true only when the distance from the
runway threshold to the aircraft lies in the interception band `[15, 30]`;
in particular any aircraft strictly closer than 15 is rejected. -/
theorem canConductInstrumentApproach_distance_band (G : Geometry) (ac : AircraftModel)
    (position : Option Pos) (rw : RunwayModel) :
    (canConductInstrumentApproach G ac position (some rw) = true →
      15 ≤ G.distBetween rw.position ac.position ∧
        G.distBetween rw.position ac.position ≤ 30) ∧
    (G.distBetween rw.position ac.position < 15 →
      canConductInstrumentApproach G ac position (some rw) = false) := by
  cases position with
  | none => simp [canConductInstrumentApproach]
  | some p =>
    constructor
    · intro h
      simp only [canConductInstrumentApproach] at h
      by_cases h1 : 30 < G.distBetween rw.position ac.position ∨
          G.distBetween rw.position ac.position < 15
      · rw [if_pos h1] at h
        exact absurd h (by simp)
      · push_neg at h1
        exact ⟨h1.2, h1.1⟩
    · intro hd
      simp only [canConductInstrumentApproach]
      rw [if_pos (Or.inr hd)]

/-- Claim C6 witness: an aircraft 10 from the threshold (closer than the
band's lower bound 15) is rejected. -/
theorem canConductInstrumentApproach_distance_band_witness :
    canConductInstrumentApproach Gnear ac0 (some (Pos.mk 1 2)) (some rw0) = false :=
  (canConductInstrumentApproach_distance_band Gnear ac0 (some (Pos.mk 1 2)) rw0).2
    (by norm_num [Gnear])

/-- Claim C8: both embedded revisions of `canConductInstrumentApproach`
return false — and do not throw — whenever the position argument is nil,
the runway argument is nil, or the commanded altitude is below the runway's
minimum glideslope-intercept altitude.  (For the superseded revision the
result is `Except.ok false`: the `TypeError` it otherwise raises lies past
these guards.) -/
theorem canConductInstrumentApproach_guard_false (G : Geometry) (ac : AircraftModel)
    (position : Option Pos) (runwayModel : Option RunwayModel) :
    (position = none →
      canConductInstrumentApproach G ac position runwayModel = false ∧
      canConductInstrumentApproachOld G ac position runwayModel = Except.ok false) ∧
    (runwayModel = none →
      canConductInstrumentApproach G ac position runwayModel = false ∧
      canConductInstrumentApproachOld G ac position runwayModel = Except.ok false) ∧
    ∀ rw, runwayModel = some rw →
      ac.mcpAltitude < rw.minimumGlideslopeInterceptAltitude →
      canConductInstrumentApproach G ac position runwayModel = false ∧
      canConductInstrumentApproachOld G ac position runwayModel = Except.ok false := by
  refine ⟨?_, ?_, ?_⟩
  · rintro rfl
    simp [canConductInstrumentApproach, canConductInstrumentApproachOld]
  · rintro rfl
    cases position <;> simp [canConductInstrumentApproach, canConductInstrumentApproachOld]
  · rintro rw rfl halt
    cases position with
    | none => simp [canConductInstrumentApproach, canConductInstrumentApproachOld]
    | some p =>
      constructor
      · simp only [canConductInstrumentApproach]
        by_cases h1 : 30 < G.distBetween rw.position ac.position ∨
            G.distBetween rw.position ac.position < 15
        · rw [if_pos h1]
        · rw [if_neg h1, if_pos halt]
      · simp [canConductInstrumentApproachOld, halt]

/-- Claim C8 witness: a nil position yields false on the current
revision. -/
theorem canConductInstrumentApproach_guard_false_witness :
    canConductInstrumentApproach G0 ac0 none (some rw0) = false :=
  ((canConductInstrumentApproach_guard_false G0 ac0 none (some rw0)).1 rfl).1

/-- Claim C10, amended: `transition(state, action, nextState, reward)`
leaves the row of every state other than `state` unchanged (hence also the
row of `nextState` whenever `nextState` is a different state), and inside
`state`'s row leaves every action other than `action` at its previous
Q-value (0 when the row was created by this call).  The amendment restricts
the no-modification guarantee for `nextState`'s row to the case
`nextState.id ≠ state.id`; the unrestricted form is refuted by
`transition_creates_row_for_self_nextState`. -/
theorem transition_frame (G : Geometry) (ctx : Ctx) (values : QTable)
    (state : StateModel) (action : Action) (nextState : StateModel) (reward : ℚ)
    (k : ℕ) :
    (∀ i, i ≠ state.id →
      transition G ctx values state action nextState reward k i = values i) ∧
    (∀ a, a ≠ action →
      getQValue (transition G ctx values state action nextState reward k) state a =
        getQValue values state a) ∧
    (nextState.id ≠ state.id →
      transition G ctx values state action nextState reward k nextState.id =
        values nextState.id) := by
  have h1 : ∀ i, i ≠ state.id →
      transition G ctx values state action nextState reward k i = values i := by
    intro i hi
    simp only [transition]
    rw [writeQ_ne _ _ _ _ _ hi, initRow_ne _ _ _ hi]
  refine ⟨h1, ?_, fun h => h1 nextState.id h⟩
  intro a ha
  have h2 := getQValue_writeQ_ne_action (initRow values state.id) state action a
    ((1 - ctx.alpha) * getQValue (initRow values state.id) state action +
      ctx.alpha * (reward +
        ctx.discount * computeValueFromQValues G ctx (initRow values state.id) nextState k)) ha
  rw [initRow_self, Option.getD_some] at h2
  calc getQValue (transition G ctx values state action nextState reward k) state a
      = Row.get ((values state.id).getD Row.zero) a := h2
    _ = getQValue values state a := by
        rcases hv : values state.id with _ | r
        · simp [getQValue, hv, Row.get_zero]
        · simp [getQValue, hv]

/-- Claim C10 witness: a transition from `s35` to the distinct state `ns30`
leaves the (absent) row of `ns30` untouched. -/
theorem transition_frame_witness :
    transition G0 ctx40 emptyTable s35 Action.north ns30 5 0 ns30.id =
      emptyTable ns30.id :=
  (transition_frame G0 ctx40 emptyTable s35 Action.north ns30 5 0).2.2
    (by norm_num [ns30, s35])

/-- Claim C10 counterexample: as stated, the claim also asserts that the
row for `nextState` is neither created nor modified; calling `transition`
with `nextState = state` on a table without that row refutes it — the call
creates the row. -/
theorem transition_creates_row_for_self_nextState :
    transition G0 ctx40 emptyTable s35 Action.north s35 5 0 s35.id ≠
      emptyTable s35.id := by
  simp only [transition, writeQ, emptyTable]
  simp

end OpenScope
